import Mathlib

/-!
Shallow embedding of the bundle lifecycle engine of Cap-go/electron-updater.

The embedding follows the TypeScript sources:
  * `src/shared/types.ts` — bundle data model;
  * `BundleManager` (bundle-manager.ts) — lifecycle operations;
  * `StorageManager` (storage.ts) — manifest store, modelled as a pair of
    manifests (in-memory document `mem` and persisted document `disk`,
    `save` copying `mem` to `disk`);
  * `DelayManager.isDateConditionSatisfied` and
    `CryptoManager.parseSessionKey` (delay-manager.ts / crypto.ts).

External effects are passed in as parameters: `verify` stands for
`DownloadManager.verifyBundleIntegrity`, `fsOutcome` for the result of the
`fs.promises.rm` call inside `StorageManager.deleteBundleFiles`, `onDisk`
for `StorageManager.bundleExists`, `parseDate` for JavaScript date parsing
(`none` standing for an Invalid Date, whose `getTime()` is `NaN`).
The JavaScript object `manifest.bundles` is modelled as an association
list with the object operations (lookup, in-place set, delete) spelled
out by recursion.
-/

namespace ElectronUpdater

/-- Status type `BundleStatus` from src/shared/types.ts. -/
inductive BundleStatus where
  | pending
  | downloading
  | success
  | error
deriving DecidableEq, Repr

/-- Record `BundleInfo` from src/shared/types.ts. -/
structure BundleInfo where
  id : String
  version : String
  downloaded : String
  checksum : String
  status : BundleStatus
deriving DecidableEq, Repr

/-- Payload `UpdateFailedEvent` (`{ bundle }`). -/
structure UpdateFailedEvent where
  bundle : BundleInfo
deriving DecidableEq, Repr

/-- Delay condition kinds from src/shared/types.ts. -/
inductive DelayKind where
  | background
  | kill
  | date
  | nativeVersion
deriving DecidableEq, Repr

/-- Record `DelayCondition` from src/shared/types.ts (`value` is optional). -/
structure DelayCondition where
  kind : DelayKind
  value : Option String
deriving DecidableEq, Repr

/-- Constant `BUILTIN_BUNDLE_ID` from src/shared/constants.ts. -/
def BUILTIN_BUNDLE_ID : String := "builtin"

/-- Record `BundleManifest`: the durable root document kept by `StorageManager`. -/
structure BundleManifest where
  bundles : List (String × BundleInfo)
  currentBundleId : String
  nextBundleId : Option String
  lastSuccessfulBundleId : Option String
  failedUpdate : Option UpdateFailedEvent
  delayConditions : List DelayCondition
  customId : Option String
  channel : Option String
deriving DecidableEq, Repr

/-- JavaScript object read `bundles[id]` (`StorageManager.getBundle`). -/
def lookupBundle : List (String × BundleInfo) → String → Option BundleInfo
  | [], _ => none
  | (k, v) :: rest, id => if k = id then some v else lookupBundle rest id

/-- JavaScript object write `bundles[id] = b` (`StorageManager.setBundle`):
replaces the entry for an existing key in place, appends otherwise. -/
def assocSet : List (String × BundleInfo) → String → BundleInfo → List (String × BundleInfo)
  | [], id, b => [(id, b)]
  | (k, v) :: rest, id, b =>
      if k = id then (k, b) :: rest else (k, v) :: assocSet rest id b

/-- JavaScript `delete bundles[id]` (`StorageManager.deleteBundle`). -/
def assocDelete : List (String × BundleInfo) → String → List (String × BundleInfo)
  | [], _ => []
  | (k, v) :: rest, id =>
      if k = id then assocDelete rest id else (k, v) :: assocDelete rest id

/-- State of `StorageManager`: the in-memory document and the persisted one. -/
structure Store where
  mem : BundleManifest
  disk : BundleManifest
deriving DecidableEq, Repr

/-- Operation `StorageManager.save()`: full-document durable write of the
in-memory manifest. -/
def save (s : Store) : Store := { s with disk := s.mem }

/-- Read `StorageManager.getBundle` on the in-memory manifest. -/
def getBundle (m : BundleManifest) (id : String) : Option BundleInfo :=
  lookupBundle m.bundles id

/-- Operation `BundleManager.getBuiltinBundle()`: descriptor of the builtin
bundle. -/
def getBuiltinBundle (builtinVersion : String) : BundleInfo :=
  { id := BUILTIN_BUNDLE_ID
    version := builtinVersion
    downloaded := ""
    checksum := ""
    status := BundleStatus.success }

/-- Record `CurrentBundleResult` from src/shared/types.ts. -/
structure CurrentBundleResult where
  bundle : BundleInfo
  native : String
deriving DecidableEq, Repr

/-- Operation `BundleManager.current()`: resolves `currentBundleId`, falling back to
the builtin descriptor when the id is the builtin sentinel or unknown. -/
def current (builtinVersion : String) (m : BundleManifest) : CurrentBundleResult :=
  let currentId := m.currentBundleId
  let bundle :=
    if currentId = BUILTIN_BUNDLE_ID then getBuiltinBundle builtinVersion
    else (getBundle m currentId).getD (getBuiltinBundle builtinVersion)
  { bundle := bundle, native := builtinVersion }

/-- Operation `BundleManager.list(options)`: builtin descriptor plus stored bundles;
when not `raw`, only bundles whose files exist on disk (`onDisk`). -/
def list (builtinVersion : String) (onDisk : String → Bool) (raw : Bool)
    (m : BundleManifest) : List BundleInfo :=
  let stored := m.bundles.map (fun p => p.2)
  getBuiltinBundle builtinVersion ::
    (if raw then stored else stored.filter (fun b => onDisk b.id))

/-- Operation `StorageManager.deleteBundleFiles`: attempts `fs.promises.rm` and
swallows any error (`catch` logs and returns normally), so the result is
`ok` whatever the file-system outcome was. -/
def deleteBundleFiles (fsOutcome : Except String Unit) : Except String Unit :=
  match fsOutcome with
  | Except.ok _ => Except.ok ()
  | Except.error _ => Except.ok ()

/-- Operation `BundleManager.deleteBundle(options)`: rejects the builtin id, the
current id and the next id; otherwise deletes files (best effort), removes
the manifest entry and saves. -/
def deleteBundle (fsOutcome : Except String Unit) (s : Store) (id : String) :
    Store × Except String Unit :=
  let currentId := s.mem.currentBundleId
  let nextId := s.mem.nextBundleId
  if id = BUILTIN_BUNDLE_ID then
    (s, Except.error "Cannot delete builtin bundle")
  else if id = currentId then
    (s, Except.error "Cannot delete currently active bundle")
  else if some id = nextId then
    (s, Except.error "Cannot delete bundle set as next")
  else
    match deleteBundleFiles fsOutcome with
    | Except.error e => (s, Except.error e)
    | Except.ok _ =>
        let s1 : Store :=
          { s with mem := { s.mem with bundles := assocDelete s.mem.bundles id } }
        (save s1, Except.ok ())

/-- Operation `BundleManager.next(options)`: fails on unknown id, non-`success`
status, or failed integrity re-verification; on success sets
`nextBundleId` and saves. -/
def next (verify : String → Bool) (s : Store) (id : String) :
    Store × Except String BundleInfo :=
  match getBundle s.mem id with
  | none => (s, Except.error ("Bundle " ++ id ++ " not found"))
  | some bundle =>
      if bundle.status ≠ BundleStatus.success then
        (s, Except.error ("Bundle " ++ id ++ " is not ready"))
      else if verify id = false then
        (s, Except.error ("Bundle " ++ id ++ " failed integrity check"))
      else
        let s1 : Store :=
          { s with mem := { s.mem with nextBundleId := some id } }
        (save s1, Except.ok bundle)

/-- Operation `BundleManager.getFailedUpdate()` =
`StorageManager.clearFailedUpdate()`: returns the stored record and clears
it in the in-memory manifest; no `save()` follows. -/
def getFailedUpdate (s : Store) : Store × Option UpdateFailedEvent :=
  let failed := s.mem.failedUpdate
  ({ s with mem := { s.mem with failedUpdate := none } }, failed)

/-- Operation `BundleManager.recordFailedUpdate(bundle)`: stores the record and
saves. -/
def recordFailedUpdate (s : Store) (b : BundleInfo) : Store :=
  save { s with mem := { s.mem with failedUpdate := some { bundle := b } } }

/-- Operation `BundleManager.rollback()`: marks the stored current bundle `error`,
records it as the failed update, best-effort deletes it when
`autoDeleteFailed` (the rejection of that delete is swallowed), then sets
`currentBundleId` to `lastSuccessfulBundleId ?? builtin`, clears
`nextBundleId` and saves. -/
def rollback (builtinVersion : String) (autoDeleteFailed : Bool)
    (fsOutcome : Except String Unit) (s : Store) : Store × BundleInfo :=
  let currentId := s.mem.currentBundleId
  let lastSuccessfulId := s.mem.lastSuccessfulBundleId
  let targetId := lastSuccessfulId.getD BUILTIN_BUNDLE_ID
  let s1 :=
    match getBundle s.mem currentId with
    | some currentBundle =>
        let cb := { currentBundle with status := BundleStatus.error }
        let sA : Store :=
          { s with mem := { s.mem with bundles := assocSet s.mem.bundles currentId cb } }
        let sB := recordFailedUpdate sA cb
        if autoDeleteFailed then (deleteBundle fsOutcome sB currentId).1 else sB
    | none => s
  let s2 :=
    save { s1 with mem := { s1.mem with currentBundleId := targetId, nextBundleId := none } }
  (s2, (getBundle s2.mem targetId).getD (getBuiltinBundle builtinVersion))

/-- Operation `BundleManager.applyPendingUpdate()`: no-op when there is no (truthy)
next id or next equals current; drops a dangling next id; marks a bundle
failing re-verification `error` and clears next; otherwise swaps current
to next, clears next, saves, and best-effort deletes the previous
bundle. Returns `(store, applied, bundleId)`. -/
def applyPendingUpdate (autoDeletePrevious : Bool) (verify : String → Bool)
    (fsOutcome : Except String Unit) (s : Store) : Store × Bool × String :=
  let currentId := s.mem.currentBundleId
  match s.mem.nextBundleId with
  | none => (s, false, currentId)
  | some nextId =>
      if nextId = "" then (s, false, currentId)
      else if nextId = currentId then (s, false, currentId)
      else
        match getBundle s.mem nextId with
        | none =>
            let s1 : Store :=
              { s with mem := { s.mem with nextBundleId := none } }
            (save s1, false, currentId)
        | some bundle =>
            if verify nextId = false then
              let b := { bundle with status := BundleStatus.error }
              let s1 : Store :=
                { s with mem :=
                  { s.mem with bundles := assocSet s.mem.bundles nextId b
                               nextBundleId := none } }
              (save s1, false, currentId)
            else
              let previousId := currentId
              let s1 :=
                save { s with mem :=
                  { s.mem with currentBundleId := nextId, nextBundleId := none } }
              let s2 :=
                if autoDeletePrevious && previousId ≠ BUILTIN_BUNDLE_ID then
                  (deleteBundle fsOutcome s1 previousId).1
                else s1
              (s2, true, nextId)

/-- Predicate `DelayManager.isDateConditionSatisfied(value)`.  In the source,
`new Date(value)` never throws on a bad string: it yields an Invalid Date
whose `getTime()` is `NaN`, and `Date.now() >= NaN` evaluates to `false`,
so the `catch` branch is unreachable for string inputs.  `parseDate`
returns `none` exactly when JavaScript would produce an Invalid Date; a
missing or empty value is falsy and short-circuits to `true`. -/
def isDateConditionSatisfied (now : Int) (parseDate : String → Option Int)
    (value : Option String) : Bool :=
  match value with
  | none => true
  | some v =>
      if v = "" then true
      else
        match parseDate v with
        | some t => decide (now ≥ t)
        | none => false

/-- Helper for `splitColon`: walks the character list, cutting at each
colon (the accumulator holds the current field reversed). -/
def splitColonAux : List Char → List Char → List String
  | [], acc => [String.mk acc.reverse]
  | c :: cs, acc =>
      if c = ':' then String.mk acc.reverse :: splitColonAux cs []
      else splitColonAux cs (c :: acc)

/-- JavaScript `sessionKey.split(':')`: splits on every colon, keeping
empty fields. -/
def splitColon (s : String) : List String := splitColonAux s.data []

/-- Operation `CryptoManager.parseSessionKey(sessionKey)`: fails (returns `none`)
without a configured (truthy) public key; splits on `":"` and fails unless
there are exactly two fields; base64-decodes both (lenient, never throws,
modelled by total `b64`), then recovers the symmetric key with
`crypto.publicDecrypt` (modelled by `publicDecrypt`, `none` when it
throws, caught and turned into `none`). -/
def parseSessionKey (publicKey : Option String) (b64 : String → List Nat)
    (publicDecrypt : String → List Nat → Option (List Nat))
    (sessionKey : String) : Option (List Nat × List Nat) :=
  match publicKey with
  | none => none
  | some pk =>
      if pk = "" then none
      else
        match splitColon sessionKey with
        | [p0, p1] =>
            let iv := b64 p0
            let encryptedAesKey := b64 p1
            match publicDecrypt pk encryptedAesKey with
            | some aesKey => some (iv, aesKey)
            | none => none
        | _ => none

/-- Success test on an `Except` result (the promise resolved rather than
rejected). -/
def resultOk {α : Type} : Except String α → Bool
  | Except.ok _ => true
  | Except.error _ => false

/-! Helper lemmas about the association-list operations. -/

theorem lookupBundle_assocSet_self (l : List (String × BundleInfo)) (k : String)
    (b : BundleInfo) : lookupBundle (assocSet l k b) k = some b := by
  induction l with
  | nil => simp [assocSet, lookupBundle]
  | cons p rest ih =>
      obtain ⟨k0, v0⟩ := p
      by_cases hk : k0 = k
      · subst hk
        simp [assocSet, lookupBundle]
      · simp [assocSet, lookupBundle, hk, ih]

theorem lookupBundle_assocSet_ne (l : List (String × BundleInfo)) (k kq : String)
    (b : BundleInfo) (h : kq ≠ k) :
    lookupBundle (assocSet l k b) kq = lookupBundle l kq := by
  have hk' : k ≠ kq := fun hc => h hc.symm
  induction l with
  | nil =>
      simp [assocSet, lookupBundle, hk']
  | cons p rest ih =>
      obtain ⟨k0, v0⟩ := p
      by_cases hk : k0 = k
      · subst hk
        have hkq : k0 ≠ kq := fun hc => h hc.symm
        simp [assocSet, lookupBundle, hkq]
      · simp only [assocSet, if_neg hk]
        by_cases hq : k0 = kq
        · simp [lookupBundle, hq]
        · simp [lookupBundle, hq, ih]

theorem lookupBundle_assocDelete_self (l : List (String × BundleInfo)) (k : String) :
    lookupBundle (assocDelete l k) k = none := by
  induction l with
  | nil => simp [assocDelete, lookupBundle]
  | cons p rest ih =>
      obtain ⟨k0, v0⟩ := p
      by_cases hk : k0 = k
      · simp [assocDelete, hk, ih]
      · simp [assocDelete, lookupBundle, hk, ih]

theorem mem_assocDelete (l : List (String × BundleInfo)) (k : String)
    (p : String × BundleInfo) (hp : p ∈ assocDelete l k) : p ∈ l ∧ p.1 ≠ k := by
  induction l with
  | nil => simp [assocDelete] at hp
  | cons q rest ih =>
      obtain ⟨k0, v0⟩ := q
      by_cases hk : k0 = k
      · rw [assocDelete, if_pos hk] at hp
        rcases ih hp with ⟨h1, h2⟩
        exact ⟨List.mem_cons_of_mem _ h1, h2⟩
      · rw [assocDelete, if_neg hk] at hp
        rcases List.mem_cons.mp hp with h | h
        · subst h
          exact ⟨List.mem_cons_self _ _, hk⟩
        · rcases ih h with ⟨h1, h2⟩
          exact ⟨List.mem_cons_of_mem _ h1, h2⟩

/-! Helper lemmas about `deleteBundle`. -/

/-- Deleting the id that is currently active never changes the store: the
call is rejected at one of the two leading guards. -/
theorem deleteBundle_current_noop (fs : Except String Unit) (t : Store) (id : String)
    (h : id = t.mem.currentBundleId) :
    (deleteBundle fs t id).1 = t ∧ resultOk (deleteBundle fs t id).2 = false := by
  by_cases hb : id = BUILTIN_BUNDLE_ID
  · simp [deleteBundle, hb, resultOk]
  · subst h
    simp [deleteBundle, hb, resultOk]

/-- Frame facts: `deleteBundle` never changes the manifest pointers or the
failed-update record of the in-memory manifest. -/
theorem deleteBundle_frame (fs : Except String Unit) (t : Store) (id : String) :
    (deleteBundle fs t id).1.mem.currentBundleId = t.mem.currentBundleId ∧
    (deleteBundle fs t id).1.mem.nextBundleId = t.mem.nextBundleId ∧
    (deleteBundle fs t id).1.mem.failedUpdate = t.mem.failedUpdate := by
  by_cases h1 : id = BUILTIN_BUNDLE_ID
  · simp [deleteBundle, h1]
  · by_cases h2 : id = t.mem.currentBundleId
    · subst h2
      simp [deleteBundle, h1]
    · by_cases h3 : some id = t.mem.nextBundleId
      · simp [deleteBundle, h1, h2, h3]
      · cases fs <;> simp [deleteBundle, deleteBundleFiles, h1, h2, h3, save]

/-- Shape of a successful `deleteBundle` call: with all three guards
passed, the entry is removed and the manifest saved, whatever the
file-system outcome was. -/
theorem deleteBundle_ok_shape (fs : Except String Unit) (s : Store) (id : String)
    (h1 : id ≠ BUILTIN_BUNDLE_ID) (h2 : id ≠ s.mem.currentBundleId)
    (h3 : some id ≠ s.mem.nextBundleId) :
    deleteBundle fs s id =
      (save { s with mem := { s.mem with bundles := assocDelete s.mem.bundles id } },
       Except.ok ()) := by
  cases fs <;> simp [deleteBundle, deleteBundleFiles, h1, h2, h3]

/-- An id that is absent from the bundle map and is not the builtin id
never appears among the ids of `list()` output. -/
theorem list_id_not_mem (bv : String) (onDisk : String → Bool) (raw : Bool)
    (m : BundleManifest) (id : String) (hne : id ≠ BUILTIN_BUNDLE_ID)
    (hall : ∀ p, p ∈ m.bundles → (p : String × BundleInfo).2.id ≠ id) :
    id ∉ (list bv onDisk raw m).map (fun b => b.id) := by
  intro hmem
  rcases List.mem_map.mp hmem with ⟨bb, hbb, hbbid⟩
  simp only [list] at hbb
  rcases List.mem_cons.mp hbb with hb0 | hbr
  · rw [hb0] at hbbid
    exact hne (hbbid.symm.trans rfl)
  · have hstored : bb ∈ m.bundles.map (fun p => p.2) := by
      cases raw with
      | true => simpa using hbr
      | false =>
          have hbr2 := hbr
          rw [if_neg (show ¬(false = true) by simp)] at hbr2
          exact List.mem_of_mem_filter hbr2
    rcases List.mem_map.mp hstored with ⟨p, hp, hpv⟩
    have hid := hall p hp
    rw [hpv] at hid
    exact hid hbbid

/-- C6: the claim says an unparsable date value makes the condition
satisfied; in the source `new Date(value)` never throws on a bad string
but yields an Invalid Date whose `getTime()` is `NaN`, and
`Date.now() >= NaN` is `false`, so the condition is NOT satisfied (the
`catch` branch returning `true` is unreachable).  Evaluated at an
unparsable value the code yields `false`. -/
theorem C6_unparsable_date_not_satisfied :
    isDateConditionSatisfied 100 (fun _ => none) (some "not-a-date") = false := rfl

/-- C8: session-key parsing fails for every input when no public key is
configured; it fails whenever the colon-split field count differs from
two; and a recovered pair can only come from a two-field input with a
configured key. -/
theorem C8_parseSessionKey_guards (b64 : String → List Nat)
    (pd : String → List Nat → Option (List Nat)) (sessionKey : String)
    (pk : Option String) :
    parseSessionKey none b64 pd sessionKey = none ∧
    ((splitColon sessionKey).length ≠ 2 → parseSessionKey pk b64 pd sessionKey = none) ∧
    (∀ r, parseSessionKey pk b64 pd sessionKey = some r →
      (splitColon sessionKey).length = 2 ∧ ∃ k, pk = some k ∧ k ≠ "") := by
  refine ⟨rfl, ?_, ?_⟩
  · intro hlen
    cases pk with
    | none => rfl
    | some k =>
        by_cases hk : k = ""
        · simp [parseSessionKey, hk]
        · rw [parseSessionKey]
          rw [if_neg hk]
          cases hsp : splitColon sessionKey with
          | nil => rfl
          | cons a t =>
              cases t with
              | nil => rfl
              | cons b t2 =>
                  cases t2 with
                  | nil => exact absurd (by simp [hsp]) hlen
                  | cons c t3 => rfl
  · intro r hr
    cases pk with
    | none => exact absurd hr (by simp [parseSessionKey])
    | some k =>
        by_cases hk : k = ""
        · rw [parseSessionKey, if_pos hk] at hr
          exact absurd hr (by simp)
        · refine ⟨?_, k, rfl, hk⟩
          rw [parseSessionKey, if_neg hk] at hr
          cases hsp : splitColon sessionKey with
          | nil => rw [hsp] at hr; exact absurd hr (by simp)
          | cons a t =>
              cases t with
              | nil => rw [hsp] at hr; exact absurd hr (by simp)
              | cons b t2 =>
                  cases t2 with
                  | nil => simp [hsp]
                  | cons c t3 => rw [hsp] at hr; exact absurd hr (by simp)

/-- Witness for C8 at concrete inputs: three colon-separated fields are
rejected even with a configured key. -/
theorem C8_witness :
    parseSessionKey (some "pubkey") (fun _ => []) (fun _ _ => some [1]) "aa:bb:cc" = none :=
  (C8_parseSessionKey_guards (fun _ => []) (fun _ _ => some [1]) "aa:bb:cc"
    (some "pubkey")).2.1 (by decide)

/-- C10: a file-system failure while removing a bundle's files is
swallowed inside `deleteBundleFiles`, so for a stored id passing all
guards `deleteBundle` still succeeds and removes the manifest entry even
when the underlying directory removal failed. -/
theorem C10_deleteBundle_swallows_fs_error (e : String) (s : Store) (id : String)
    (b : BundleInfo) (h1 : id ≠ BUILTIN_BUNDLE_ID) (h2 : id ≠ s.mem.currentBundleId)
    (h3 : some id ≠ s.mem.nextBundleId) (h4 : getBundle s.mem id = some b) :
    deleteBundleFiles (Except.error e) = Except.ok () ∧
    resultOk (deleteBundle (Except.error e) s id).2 = true ∧
    getBundle (deleteBundle (Except.error e) s id).1.mem id = none := by
  rw [deleteBundle_ok_shape (Except.error e) s id h1 h2 h3]
  exact ⟨rfl, rfl, lookupBundle_assocDelete_self s.mem.bundles id⟩

/-- Witness for C10 at concrete inputs: deleting a stored, non-active
bundle succeeds and removes the entry even when the directory removal
raised an error. -/
theorem C10_witness :
    resultOk (deleteBundle (Except.error "EACCES")
      { mem :=
          { bundles := [("old1",
              { id := "old1", version := "1", downloaded := "d", checksum := "c",
                status := BundleStatus.success })]
            currentBundleId := "b2", nextBundleId := none,
            lastSuccessfulBundleId := none, failedUpdate := none,
            delayConditions := [], customId := none, channel := none }
        disk :=
          { bundles := [("old1",
              { id := "old1", version := "1", downloaded := "d", checksum := "c",
                status := BundleStatus.success })]
            currentBundleId := "b2", nextBundleId := none,
            lastSuccessfulBundleId := none, failedUpdate := none,
            delayConditions := [], customId := none, channel := none } }
      "old1").2 = true :=
  (C10_deleteBundle_swallows_fs_error "EACCES" _ "old1"
    { id := "old1", version := "1", downloaded := "d", checksum := "c",
      status := BundleStatus.success }
    (by decide) (by decide) (by decide) (by decide)).2.1

/-! Shape lemmas for `rollback`. -/

/-- Marking a bundle record with status `error`
(`currentBundle.status = 'error'` in the source). -/
def markError (b : BundleInfo) : BundleInfo := { b with status := BundleStatus.error }

/-- Deleting the id that is currently active is a no-op on the store, in
either branch of a surrounding conditional. -/
theorem ite_deleteBundle_current (fs : Except String Unit) (t : Store) (id : String)
    (cond : Bool) (h : id = t.mem.currentBundleId) :
    (if cond = true then (deleteBundle fs t id).1 else t) = t := by
  cases cond
  · rfl
  · rw [if_pos rfl]
    exact (deleteBundle_current_noop fs t id h).1

/-- When the current id resolves to a stored bundle, `rollback` marks that
entry `error`, records the failed update, leaves the entry in place (the
internal delete is rejected while the bundle is still current, and the
rejection is swallowed), redirects the current pointer to the target and
clears the next pointer; the result is saved. -/
theorem rollback_mem_stored (bv : String) (adf : Bool) (fs : Except String Unit)
    (s : Store) (b : BundleInfo)
    (h : getBundle s.mem s.mem.currentBundleId = some b) :
    (rollback bv adf fs s).1.mem =
      { s.mem with
          bundles := assocSet s.mem.bundles s.mem.currentBundleId (markError b)
          failedUpdate := some { bundle := markError b }
          currentBundleId := s.mem.lastSuccessfulBundleId.getD BUILTIN_BUNDLE_ID
          nextBundleId := none } ∧
    (rollback bv adf fs s).1.disk = (rollback bv adf fs s).1.mem := by
  have h' : lookupBundle s.mem.bundles s.mem.currentBundleId = some b := h
  simp only [rollback, getBundle, h']
  rw [ite_deleteBundle_current fs _ s.mem.currentBundleId adf]
  · exact ⟨rfl, rfl⟩
  · rfl

/-- When the current id does not resolve to a stored bundle, `rollback`
only redirects the current pointer and clears the next pointer, then
saves. -/
theorem rollback_mem_unstored (bv : String) (adf : Bool) (fs : Except String Unit)
    (s : Store) (h : getBundle s.mem s.mem.currentBundleId = none) :
    (rollback bv adf fs s).1.mem =
      { s.mem with
          currentBundleId := s.mem.lastSuccessfulBundleId.getD BUILTIN_BUNDLE_ID
          nextBundleId := none } ∧
    (rollback bv adf fs s).1.disk = (rollback bv adf fs s).1.mem := by
  simp only [rollback, getBundle] at h ⊢
  rw [show lookupBundle s.mem.bundles s.mem.currentBundleId = none from h]
  simp [save]

/-- A current pointer that is the builtin id, or that resolves only to
non-`error` bundles, yields a non-`error` `current()` result. -/
theorem current_bundle_status (bv : String) (m : BundleManifest)
    (h : m.currentBundleId = BUILTIN_BUNDLE_ID ∨
         (∀ b, getBundle m m.currentBundleId = some b → b.status ≠ BundleStatus.error)) :
    (current bv m).bundle.status ≠ BundleStatus.error := by
  simp only [current]
  by_cases hc : m.currentBundleId = BUILTIN_BUNDLE_ID
  · rw [if_pos hc]
    intro hcon
    exact BundleStatus.noConfusion hcon
  · rcases h with h | h
    · exact absurd h hc
    · rw [if_neg hc]
      cases hg : getBundle m m.currentBundleId with
      | none =>
          intro hcon
          exact BundleStatus.noConfusion hcon
      | some bb => exact h bb hg

/-- C2: when the current id resolves to a stored bundle, `rollback` marks
that bundle `error` and records it as the failed-update record; in every
state it then sets `currentBundleId` to `lastSuccessfulBundleId` when
present and to the builtin id otherwise, and clears `nextBundleId`. -/
theorem C2_rollback_records_and_redirects (bv : String) (adf : Bool)
    (fs : Except String Unit) (s : Store) :
    (∀ b, getBundle s.mem s.mem.currentBundleId = some b →
      getBundle (rollback bv adf fs s).1.mem s.mem.currentBundleId = some (markError b) ∧
      (rollback bv adf fs s).1.mem.failedUpdate = some { bundle := markError b }) ∧
    (rollback bv adf fs s).1.mem.currentBundleId
      = s.mem.lastSuccessfulBundleId.getD BUILTIN_BUNDLE_ID ∧
    (rollback bv adf fs s).1.mem.nextBundleId = none := by
  refine ⟨?_, ?_, ?_⟩
  · intro b hb
    rw [(rollback_mem_stored bv adf fs s b hb).1]
    exact ⟨lookupBundle_assocSet_self s.mem.bundles s.mem.currentBundleId (markError b), rfl⟩
  · cases hb : getBundle s.mem s.mem.currentBundleId with
    | some b => rw [(rollback_mem_stored bv adf fs s b hb).1]
    | none => rw [(rollback_mem_unstored bv adf fs s hb).1]
  · cases hb : getBundle s.mem s.mem.currentBundleId with
    | some b => rw [(rollback_mem_stored bv adf fs s b hb).1]
    | none => rw [(rollback_mem_unstored bv adf fs s hb).1]

/-- Concrete store for the C2 witness. -/
def bW2 : BundleInfo :=
  { id := "b1", version := "1.0.1", downloaded := "d", checksum := "c",
    status := BundleStatus.success }

/-- Concrete manifest for the C2 witness. -/
def mW2 : BundleManifest :=
  { bundles := [("b1", bW2)], currentBundleId := "b1", nextBundleId := none,
    lastSuccessfulBundleId := none, failedUpdate := none,
    delayConditions := [], customId := none, channel := none }

/-- Witness for C2 at a concrete store with a stored current bundle. -/
theorem C2_witness :
    getBundle (rollback "2.0" true (Except.ok ()) { mem := mW2, disk := mW2 }).1.mem
      ({ mem := mW2, disk := mW2 } : Store).mem.currentBundleId = some (markError bW2) ∧
    (rollback "2.0" true (Except.ok ()) { mem := mW2, disk := mW2 }).1.mem.failedUpdate
      = some { bundle := markError bW2 } :=
  (C2_rollback_records_and_redirects "2.0" true (Except.ok ())
    { mem := mW2, disk := mW2 }).1 bW2 rfl

/-- C9: with auto-delete-failed enabled, `rollback` on a stored current
bundle leaves that bundle present in the bundle map with status `error`:
the internal delete targets the still-current id and every such delete is
rejected by the currently-active-bundle guard (or the builtin guard) and
leaves the store unchanged. -/
theorem C9_rollback_keeps_error_entry (bv : String) (fs : Except String Unit)
    (s : Store) (b : BundleInfo)
    (h : getBundle s.mem s.mem.currentBundleId = some b) :
    getBundle (rollback bv true fs s).1.mem s.mem.currentBundleId = some (markError b) ∧
    (∀ fs2 t, t.mem.currentBundleId ≠ BUILTIN_BUNDLE_ID →
      (deleteBundle fs2 t t.mem.currentBundleId).2
        = Except.error "Cannot delete currently active bundle" ∧
      (deleteBundle fs2 t t.mem.currentBundleId).1 = t) := by
  constructor
  · rw [(rollback_mem_stored bv true fs s b h).1]
    exact lookupBundle_assocSet_self s.mem.bundles s.mem.currentBundleId (markError b)
  · intro fs2 t hne
    constructor
    · simp [deleteBundle, hne]
    · simp [deleteBundle, hne]

/-- Concrete bundle for the C9 witness. -/
def bW9 : BundleInfo :=
  { id := "b9", version := "9", downloaded := "d", checksum := "c",
    status := BundleStatus.downloading }

/-- Concrete manifest for the C9 witness. -/
def mW9 : BundleManifest :=
  { bundles := [("b9", bW9)], currentBundleId := "b9", nextBundleId := none,
    lastSuccessfulBundleId := none, failedUpdate := none,
    delayConditions := [], customId := none, channel := none }

/-- Witness for C9 at a concrete store: the failed bundle is still in the
map after rollback, with status `error`. -/
theorem C9_witness :
    getBundle (rollback "1.0" true (Except.error "EBUSY") { mem := mW9, disk := mW9 }).1.mem
      ({ mem := mW9, disk := mW9 } : Store).mem.currentBundleId = some (markError bW9) :=
  (C9_rollback_keeps_error_entry "1.0" (Except.error "EBUSY")
    { mem := mW9, disk := mW9 } bW9 rfl).1

/-- Concrete bundle for the C1 counterexample. -/
def bX1 : BundleInfo :=
  { id := "b1", version := "1.0.1", downloaded := "d", checksum := "c",
    status := BundleStatus.success }

/-- Concrete manifest for the C1 counterexample: the current bundle was
itself recorded as the last successful one. -/
def mX1 : BundleManifest :=
  { bundles := [("b1", bX1)], currentBundleId := "b1", nextBundleId := none,
    lastSuccessfulBundleId := some "b1", failedUpdate := none,
    delayConditions := [], customId := none, channel := none }

/-- C1 counterexample: in a state where `lastSuccessfulBundleId` equals
the current id, `rollback` marks the bundle `error`, the internal delete
is rejected, and the current pointer is set back to the same id, so the
bundle resolved by `currentBundleId` after `rollback` has status `error`,
contradicting the claim. -/
theorem C1_counterexample :
    ({ mem := mX1, disk := mX1 } : Store).mem.lastSuccessfulBundleId
      = some ({ mem := mX1, disk := mX1 } : Store).mem.currentBundleId ∧
    (current "1.0.0"
      (rollback "1.0.0" true (Except.ok ()) { mem := mX1, disk := mX1 }).1.mem).bundle.status
      = BundleStatus.error := ⟨rfl, rfl⟩

/-- C1 (amended): after `rollback`, the bundle resolved by
`currentBundleId` has a status other than `error`, provided the rollback
target (`lastSuccessfulBundleId` when present, builtin otherwise) is the
builtin id, or differs from the invoked-time current id, or that id is
not stored, and the target did not already resolve to a bundle with
status `error`. -/
theorem C1_rollback_current_not_error (bv : String) (adf : Bool)
    (fs : Except String Unit) (s : Store)
    (h1 : s.mem.lastSuccessfulBundleId.getD BUILTIN_BUNDLE_ID = BUILTIN_BUNDLE_ID ∨
          s.mem.lastSuccessfulBundleId.getD BUILTIN_BUNDLE_ID ≠ s.mem.currentBundleId ∨
          getBundle s.mem s.mem.currentBundleId = none)
    (h2 : ∀ b, getBundle s.mem (s.mem.lastSuccessfulBundleId.getD BUILTIN_BUNDLE_ID) = some b →
          b.status ≠ BundleStatus.error) :
    (current bv (rollback bv adf fs s).1.mem).bundle.status ≠ BundleStatus.error := by
  cases hb : getBundle s.mem s.mem.currentBundleId with
  | none =>
      apply current_bundle_status
      rw [(rollback_mem_unstored bv adf fs s hb).1]
      by_cases ht : s.mem.lastSuccessfulBundleId.getD BUILTIN_BUNDLE_ID = BUILTIN_BUNDLE_ID
      · exact Or.inl ht
      · refine Or.inr ?_
        intro b hbb
        exact h2 b hbb
  | some b =>
      apply current_bundle_status
      rw [(rollback_mem_stored bv adf fs s b hb).1]
      by_cases ht : s.mem.lastSuccessfulBundleId.getD BUILTIN_BUNDLE_ID = BUILTIN_BUNDLE_ID
      · exact Or.inl ht
      · refine Or.inr ?_
        intro bb hbb
        have htc : s.mem.lastSuccessfulBundleId.getD BUILTIN_BUNDLE_ID ≠ s.mem.currentBundleId := by
          rcases h1 with h | h | h
          · exact absurd h ht
          · exact h
          · exact Option.noConfusion (h.symm.trans hb)
        have hset : lookupBundle
            (assocSet s.mem.bundles s.mem.currentBundleId (markError b))
            (s.mem.lastSuccessfulBundleId.getD BUILTIN_BUNDLE_ID)
            = lookupBundle s.mem.bundles (s.mem.lastSuccessfulBundleId.getD BUILTIN_BUNDLE_ID) :=
          lookupBundle_assocSet_ne s.mem.bundles s.mem.currentBundleId
            (s.mem.lastSuccessfulBundleId.getD BUILTIN_BUNDLE_ID) (markError b) htc
        have hbb2 : lookupBundle
            (assocSet s.mem.bundles s.mem.currentBundleId (markError b))
            (s.mem.lastSuccessfulBundleId.getD BUILTIN_BUNDLE_ID) = some bb := hbb
        rw [hset] at hbb2
        exact h2 bb hbb2

/-- Concrete bundle for the C1 witness. -/
def bY1 : BundleInfo :=
  { id := "b1", version := "1.0.1", downloaded := "d", checksum := "c",
    status := BundleStatus.success }

/-- Concrete manifest for the C1 witness: no last-successful id, so the
rollback target is the builtin id. -/
def mY1 : BundleManifest :=
  { bundles := [("b1", bY1)], currentBundleId := "b1", nextBundleId := none,
    lastSuccessfulBundleId := none, failedUpdate := none,
    delayConditions := [], customId := none, channel := none }

/-- Witness for C1 (amended) at a concrete store. -/
theorem C1_witness :
    (current "1.0"
      (rollback "1.0" true (Except.ok ()) { mem := mY1, disk := mY1 }).1.mem).bundle.status
      ≠ BundleStatus.error :=
  C1_rollback_current_not_error "1.0" true (Except.ok ()) { mem := mY1, disk := mY1 }
    (Or.inl rfl) (fun _ hbb => Option.noConfusion hbb)

/-- C4: for every id present in the bundle map, `next` succeeds exactly
when the stored bundle has status `success` and the integrity
re-verification passes; on failure (unknown id included) the store is
unchanged, and on success exactly `nextBundleId` is set and the result is
saved. -/
theorem C4_next_success_iff (verify : String → Bool) (s : Store) (id : String) :
    (∀ b, getBundle s.mem id = some b →
      (resultOk (next verify s id).2 = true ↔
        (b.status = BundleStatus.success ∧ verify id = true))) ∧
    (resultOk (next verify s id).2 = false → (next verify s id).1 = s) ∧
    (resultOk (next verify s id).2 = true →
      (next verify s id).1.mem = { s.mem with nextBundleId := some id } ∧
      (next verify s id).1.disk = { s.mem with nextBundleId := some id }) := by
  cases hb : getBundle s.mem id with
  | none =>
      refine ⟨?_, ?_, ?_⟩
      · intro b hbb
        exact Option.noConfusion hbb
      · intro _
        simp [next, hb]
      · intro hok
        rw [show next verify s id = (s, Except.error ("Bundle " ++ id ++ " not found"))
          from by simp [next, hb]] at hok
        exact Bool.noConfusion hok
  | some bundle =>
      by_cases hs : bundle.status = BundleStatus.success
      · by_cases hv : verify id = true
        · have hred : next verify s id =
              (save { s with mem := { s.mem with nextBundleId := some id } },
                Except.ok bundle) := by
            simp [next, hb, hs, hv]
          refine ⟨?_, ?_, ?_⟩
          · intro b hbb
            have hbe := Option.some.inj hbb
            subst hbe
            rw [hred]
            simp [resultOk, hs, hv]
          · intro hfalse
            rw [hred] at hfalse
            exact Bool.noConfusion hfalse
          · intro _
            rw [hred]
            exact ⟨rfl, rfl⟩
        · have hred : next verify s id =
              (s, Except.error ("Bundle " ++ id ++ " failed integrity check")) := by
            have hv' : verify id = false := by
              cases hvv : verify id
              · rfl
              · exact absurd hvv hv
            simp [next, hb, hs, hv']
          refine ⟨?_, ?_, ?_⟩
          · intro b hbb
            have hbe := Option.some.inj hbb
            subst hbe
            rw [hred]
            simp [resultOk, hv]
          · intro _
            rw [hred]
          · intro hok
            rw [hred] at hok
            exact Bool.noConfusion hok
      · have hred : next verify s id =
            (s, Except.error ("Bundle " ++ id ++ " is not ready")) := by
          simp [next, hb, hs]
        refine ⟨?_, ?_, ?_⟩
        · intro b hbb
          have hbe := Option.some.inj hbb
          subst hbe
          rw [hred]
          simp [resultOk, hs]
        · intro _
          rw [hred]
        · intro hok
          rw [hred] at hok
          exact Bool.noConfusion hok

/-- Concrete bundle for the C4 witness. -/
def bW4 : BundleInfo :=
  { id := "n1", version := "2", downloaded := "d", checksum := "c",
    status := BundleStatus.success }

/-- Concrete manifest for the C4 witness. -/
def mW4 : BundleManifest :=
  { bundles := [("n1", bW4)], currentBundleId := "builtin", nextBundleId := none,
    lastSuccessfulBundleId := none, failedUpdate := none,
    delayConditions := [], customId := none, channel := none }

/-- Witness for C4 at a concrete store: a successful `next` call sets
exactly the next pointer. -/
theorem C4_witness :
    (next (fun _ => true) { mem := mW4, disk := mW4 } "n1").1.mem
      = { mW4 with nextBundleId := some "n1" } :=
  ((C4_next_success_iff (fun _ => true) { mem := mW4, disk := mW4 } "n1").2.2 rfl).1

/-- C5: `deleteBundle` is rejected with an error, leaving the store
unchanged, when the id is the builtin id, equals `currentBundleId`, or
equals `nextBundleId`; in every other case where the id is stored it
succeeds, removes the entry from the bundle map, and the id no longer
appears among the ids in `list()` output (under the manifest invariant
that each stored bundle records its key as its own id). -/
theorem C5_deleteBundle_guards (bv : String) (fs : Except String Unit)
    (s : Store) (id : String)
    (hwf : ∀ p, p ∈ s.mem.bundles → (p : String × BundleInfo).2.id = p.1) :
    ((id = BUILTIN_BUNDLE_ID ∨ id = s.mem.currentBundleId ∨ some id = s.mem.nextBundleId) →
      resultOk (deleteBundle fs s id).2 = false ∧ (deleteBundle fs s id).1 = s) ∧
    (id ≠ BUILTIN_BUNDLE_ID → id ≠ s.mem.currentBundleId → some id ≠ s.mem.nextBundleId →
      getBundle s.mem id ≠ none →
      resultOk (deleteBundle fs s id).2 = true ∧
      getBundle (deleteBundle fs s id).1.mem id = none ∧
      ∀ onDisk raw,
        id ∉ (list bv onDisk raw (deleteBundle fs s id).1.mem).map (fun b2 => b2.id)) := by
  constructor
  · intro hg
    by_cases h1 : id = BUILTIN_BUNDLE_ID
    · simp [deleteBundle, h1, resultOk]
    · by_cases h2 : id = s.mem.currentBundleId
      · exact ⟨(deleteBundle_current_noop fs s id h2).2, (deleteBundle_current_noop fs s id h2).1⟩
      · have h3 : some id = s.mem.nextBundleId := by tauto
        simp [deleteBundle, h1, h2, h3.symm, resultOk]
  · intro h1 h2 h3 _hstored
    rw [deleteBundle_ok_shape fs s id h1 h2 h3]
    refine ⟨rfl, lookupBundle_assocDelete_self s.mem.bundles id, ?_⟩
    intro onDisk raw
    apply list_id_not_mem bv onDisk raw _ id h1
    intro p hp
    have hdel := mem_assocDelete s.mem.bundles id p hp
    rw [hwf p hdel.1]
    exact hdel.2

/-- Concrete manifest for the C5 witness: empty bundle map, a non-builtin
current bundle id. -/
def mW5 : BundleManifest :=
  { bundles := [], currentBundleId := "cur1", nextBundleId := none,
    lastSuccessfulBundleId := none, failedUpdate := none,
    delayConditions := [], customId := none, channel := none }

/-- Witness for C5 at a concrete store: deleting the currently active
bundle id is rejected and the store is unchanged. -/
theorem C5_witness :
    resultOk (deleteBundle (Except.ok ()) { mem := mW5, disk := mW5 } "cur1").2 = false ∧
    (deleteBundle (Except.ok ()) { mem := mW5, disk := mW5 } "cur1").1
      = { mem := mW5, disk := mW5 } :=
  (C5_deleteBundle_guards "1.0" (Except.ok ()) { mem := mW5, disk := mW5 } "cur1"
    (fun p hp => absurd hp (List.not_mem_nil p))).1 (Or.inr (Or.inl rfl))

/-- Concrete failed-update record for the C7 counterexample. -/
def bX7 : BundleInfo :=
  { id := "bf", version := "3", downloaded := "d", checksum := "c",
    status := BundleStatus.error }

/-- Concrete manifest for the C7 counterexample, holding a stored
failed-update record. -/
def mX7 : BundleManifest :=
  { bundles := [], currentBundleId := "builtin", nextBundleId := none,
    lastSuccessfulBundleId := none, failedUpdate := some { bundle := bX7 },
    delayConditions := [], customId := none, channel := none }

/-- C7 counterexample: `getFailedUpdate()` returns and clears the stored
record in the in-memory manifest but performs no save, so the persisted
manifest still holds the record when the call returns — the cleared state
is not persisted, contradicting the claim. -/
theorem C7_counterexample :
    (getFailedUpdate { mem := mX7, disk := mX7 }).2 = some { bundle := bX7 } ∧
    (getFailedUpdate { mem := mX7, disk := mX7 }).1.mem.failedUpdate = none ∧
    (getFailedUpdate { mem := mX7, disk := mX7 }).1.disk.failedUpdate
      = some { bundle := bX7 } := ⟨rfl, rfl, rfl⟩

/-- A store with no actionable pending update: no next id, an empty
(falsy) next id, or the next id equal to the current one. -/
def noPending (s : Store) : Prop :=
  s.mem.nextBundleId = none ∨ s.mem.nextBundleId = some "" ∨
    s.mem.nextBundleId = some s.mem.currentBundleId

/-- On a store with no actionable pending update, `applyPendingUpdate` is
an identity returning `applied = false`. -/
theorem applyPendingUpdate_noop (adp : Bool) (verify : String → Bool)
    (fs : Except String Unit) (s : Store) (h : noPending s) :
    applyPendingUpdate adp verify fs s = (s, false, s.mem.currentBundleId) := by
  rcases h with h | h | h
  · simp [applyPendingUpdate, h]
  · simp [applyPendingUpdate, h]
  · by_cases hce : s.mem.currentBundleId = ""
    · simp [applyPendingUpdate, h, hce]
    · simp [applyPendingUpdate, h, hce]

/-- After one `applyPendingUpdate` call, either the next pointer has been
cleared, or the store had no actionable pending update to begin with. -/
theorem applyPendingUpdate_post (adp : Bool) (verify : String → Bool)
    (fs : Except String Unit) (s : Store) :
    (applyPendingUpdate adp verify fs s).1.mem.nextBundleId = none ∨ noPending s := by
  cases hn : s.mem.nextBundleId with
  | none => exact Or.inr (Or.inl hn)
  | some c =>
      by_cases hce : c = ""
      · exact Or.inr (Or.inr (Or.inl (by rw [hn, hce])))
      · by_cases hcc : c = s.mem.currentBundleId
        · exact Or.inr (Or.inr (Or.inr (by rw [hn, hcc])))
        · left
          cases hb : getBundle s.mem c with
          | none => simp [applyPendingUpdate, hn, hce, hcc, hb, save]
          | some bundle =>
              cases hv : verify c with
              | false => simp [applyPendingUpdate, hn, hce, hcc, hb, hv, save]
              | true =>
                  simp only [applyPendingUpdate, hn, hce, hcc, hb, hv]
                  simp only [Bool.true_eq_false, if_false]
                  split
                  · rw [(deleteBundle_frame fs _ s.mem.currentBundleId).2.1]
                    rfl
                  · rfl

/-- A `deleteBundle` call on a store whose persisted manifest matches the
in-memory one finishes in that same saved condition: the guard rejections
leave the store unchanged and the success path ends with a save. -/
theorem deleteBundle_preserves_saved (fs : Except String Unit) (t : Store) (id : String)
    (h : t.disk = t.mem) :
    (deleteBundle fs t id).1.disk = (deleteBundle fs t id).1.mem := by
  by_cases h1 : id = BUILTIN_BUNDLE_ID
  · simp [deleteBundle, h1, h]
  · by_cases h2 : id = t.mem.currentBundleId
    · rw [(deleteBundle_current_noop fs t id h2).1]
      exact h
    · by_cases h3 : some id = t.mem.nextBundleId
      · simp [deleteBundle, h1, h2, h3.symm, h]
      · rw [deleteBundle_ok_shape fs t id h1 h2 h3]
        rfl

/-- C7 (amended): the embedded mutating operations (`rollback`, a
mutating `applyPendingUpdate`, a successful `next`, a successful
`deleteBundle`, `recordFailedUpdate`) finish with the persisted manifest
equal to the in-memory one; but `getFailedUpdate()` clears the
failed-update record in memory only and returns it without saving,
leaving the persisted manifest unchanged until the next saving
operation. -/
theorem C7_mutations_persist_except_getFailedUpdate (s : Store) :
    ((getFailedUpdate s).2 = s.mem.failedUpdate ∧
     (getFailedUpdate s).1.mem = { s.mem with failedUpdate := none } ∧
     (getFailedUpdate s).1.disk = s.disk) ∧
    (∀ bv adf fs, (rollback bv adf fs s).1.disk = (rollback bv adf fs s).1.mem) ∧
    (∀ b, (recordFailedUpdate s b).disk = (recordFailedUpdate s b).mem) ∧
    (∀ adp verify fs,
      (applyPendingUpdate adp verify fs s).1 = s ∨
      (applyPendingUpdate adp verify fs s).1.disk
        = (applyPendingUpdate adp verify fs s).1.mem) ∧
    (∀ verify id, resultOk (next verify s id).2 = true →
      (next verify s id).1.disk = (next verify s id).1.mem) ∧
    (∀ fs id, resultOk (deleteBundle fs s id).2 = true →
      (deleteBundle fs s id).1.disk = (deleteBundle fs s id).1.mem) := by
  refine ⟨⟨rfl, rfl, rfl⟩, ?_, fun b => rfl, ?_, ?_, ?_⟩
  case refine_2 =>
    intro adp verify fs
    cases hn : s.mem.nextBundleId with
    | none =>
        left
        rw [applyPendingUpdate_noop adp verify fs s (Or.inl hn)]
    | some c =>
        by_cases hce : c = ""
        · left
          rw [applyPendingUpdate_noop adp verify fs s
            (Or.inr (Or.inl (by rw [hn, hce])))]
        · by_cases hcc : c = s.mem.currentBundleId
          · left
            rw [applyPendingUpdate_noop adp verify fs s
              (Or.inr (Or.inr (by rw [hn, hcc])))]
          · right
            cases hb : getBundle s.mem c with
            | none => simp [applyPendingUpdate, hn, hce, hcc, hb, save]
            | some bundle =>
                cases hv : verify c with
                | false => simp [applyPendingUpdate, hn, hce, hcc, hb, hv, save]
                | true =>
                    simp only [applyPendingUpdate, hn, hce, hcc, hb, hv]
                    simp only [Bool.true_eq_false, if_false]
                    split
                    · apply deleteBundle_preserves_saved
                      rfl
                    · rfl
  case refine_1 =>
    intro bv adf fs
    cases hb : getBundle s.mem s.mem.currentBundleId with
    | some b => exact (rollback_mem_stored bv adf fs s b hb).2
    | none => exact (rollback_mem_unstored bv adf fs s hb).2
  · intro verify id hok
    cases hb : getBundle s.mem id with
    | none =>
        rw [show (next verify s id).2 = Except.error ("Bundle " ++ id ++ " not found")
          from by simp [next, hb]] at hok
        exact Bool.noConfusion hok
    | some bundle =>
        by_cases hs : bundle.status = BundleStatus.success
        · by_cases hv : verify id = true
          · rw [show next verify s id =
              (save { s with mem := { s.mem with nextBundleId := some id } },
                Except.ok bundle) from by simp [next, hb, hs, hv]]
            rfl
          · have hv' : verify id = false := by
              cases hvv : verify id
              · rfl
              · exact absurd hvv hv
            rw [show (next verify s id).2
                = Except.error ("Bundle " ++ id ++ " failed integrity check")
              from by simp [next, hb, hs, hv']] at hok
            exact Bool.noConfusion hok
        · rw [show (next verify s id).2 = Except.error ("Bundle " ++ id ++ " is not ready")
            from by simp [next, hb, hs]] at hok
          exact Bool.noConfusion hok
  · intro fs id hok
    by_cases h1 : id = BUILTIN_BUNDLE_ID
    · rw [show (deleteBundle fs s id).2 = Except.error "Cannot delete builtin bundle"
        from by simp [deleteBundle, h1]] at hok
      exact Bool.noConfusion hok
    · by_cases h2 : id = s.mem.currentBundleId
      · rw [(deleteBundle_current_noop fs s id h2).2] at hok
        exact Bool.noConfusion hok
      · by_cases h3 : some id = s.mem.nextBundleId
        · rw [show (deleteBundle fs s id).2 = Except.error "Cannot delete bundle set as next"
            from by simp [deleteBundle, h1, h2, h3.symm]] at hok
          exact Bool.noConfusion hok
        · rw [deleteBundle_ok_shape fs s id h1 h2 h3]
          rfl

/-- Concrete bundle for the C7 witness. -/
def bW7 : BundleInfo :=
  { id := "n7", version := "7", downloaded := "d", checksum := "c",
    status := BundleStatus.success }

/-- Concrete manifest for the C7 witness. -/
def mW7 : BundleManifest :=
  { bundles := [("n7", bW7)], currentBundleId := "builtin", nextBundleId := none,
    lastSuccessfulBundleId := none, failedUpdate := none,
    delayConditions := [], customId := none, channel := none }

/-- Witness for C7 (amended) at a concrete store: a successful `next`
call ends with the persisted manifest equal to the in-memory one. -/
theorem C7_witness :
    (next (fun _ => true) { mem := mW7, disk := mW7 } "n7").1.disk
      = (next (fun _ => true) { mem := mW7, disk := mW7 } "n7").1.mem :=
  (C7_mutations_persist_except_getFailedUpdate
    { mem := mW7, disk := mW7 }).2.2.2.2.1 (fun _ => true) "n7" rfl

/-- C3: `applyPendingUpdate` is idempotent with respect to activation:
two consecutive calls with no intervening `next()` perform at most one
swap — the second call returns `applied = false` and leaves
`currentBundleId` where the first call left it. -/
theorem C3_applyPendingUpdate_idempotent (adp : Bool) (verify : String → Bool)
    (fs1 fs2 : Except String Unit) (s : Store) :
    (applyPendingUpdate adp verify fs2 (applyPendingUpdate adp verify fs1 s).1).2.1 = false ∧
    (applyPendingUpdate adp verify fs2
        (applyPendingUpdate adp verify fs1 s).1).1.mem.currentBundleId
      = (applyPendingUpdate adp verify fs1 s).1.mem.currentBundleId := by
  rcases applyPendingUpdate_post adp verify fs1 s with h | h
  · rw [applyPendingUpdate_noop adp verify fs2 _ (Or.inl h)]
    exact ⟨rfl, rfl⟩
  · rw [applyPendingUpdate_noop adp verify fs1 s h]
    rw [applyPendingUpdate_noop adp verify fs2 s h]
    exact ⟨rfl, rfl⟩

end ElectronUpdater
